import Mathlib

/-
Verification of the interactive session engine of logview (src/main.rs).

Shallow embedding notes:
  - `InputMode`, `App` and `App.handle_key_event` are translated directly
    from src/main.rs (enum InputMode, struct App, App::handle_key_event).
    The Rust `lua: Lua` handle is not part of the embedded state; instead
    the dispatcher takes an oracle `lua_exec : List Char → Bool` giving the
    outcome of `lua.load(..).exec()` (which the code discards via
    `let _ = ...`), and returns, next to the new state, the list of command
    texts submitted to the script host during the transition, so that
    "invokes the host exactly once with exactly this text" is expressible.
  - Rust `String` buffers are embedded as `List Char` (Rust `String::pop`
    removes the last char, `push` appends one, `clear` empties).
  - crossterm `KeyCode` has further variants (arrows, function keys, ...);
    the dispatcher only distinguishes Backspace, Enter, Esc and Char(c) and
    treats everything else through its wildcard arm, so all remaining
    variants are collapsed into one constructor `other`.
-/

namespace Logview

/-- Input mode of the session, from `enum InputMode` in src/main.rs. -/
inductive InputMode where
  | normal
  | command
deriving DecidableEq, Repr

/-- Key codes distinguished by the dispatcher; `other` collapses every
crossterm variant the code only meets through its wildcard arm. -/
inductive KeyCode where
  | backspace
  | enter
  | esc
  | char (c : Char)
  | other
deriving DecidableEq, Repr

/-- Session state, from `struct App` in src/main.rs (minus the `lua` handle,
see the header comment). -/
structure App where
  content : List String
  should_quit : Bool
  input_mode : InputMode
  input_buffer : List Char
deriving DecidableEq, Repr

/-- Welcome lines used by `App::new` when no file path is given. -/
def welcomeLines : List String :=
  ["Welcome to logview!", "Press ':' to open command prompt, 'q' to quit."]

/-- Constructor `App::new` from src/main.rs. The file read is external I/O;
its already-read line list (when a path was given and the read succeeded)
is passed in as `file_lines`. -/
def App.new (file_lines : Option (List String)) : App :=
  { content :=
      match file_lines with
      | some lines => lines
      | none => welcomeLines
    should_quit := false
    input_mode := InputMode.normal
    input_buffer := [] }

/-- Literal text `quit()` intercepted before the script host. -/
def quitCommand : List Char := "quit()".toList

/-- Transition function `App::handle_key_event` from src/main.rs. Returns
the updated state together with the list of command texts submitted to
`lua.load(..).exec()` during this transition. -/
def App.handle_key_event (lua_exec : List Char → Bool) (app : App)
    (key : KeyCode) : App × List (List Char) :=
  match app.input_mode with
  | InputMode.normal =>
    match key with
    | KeyCode.char c =>
      if c = 'q' then
        ({ app with should_quit := true }, [])
      else if c = ':' then
        ({ app with input_mode := InputMode.command, input_buffer := [] }, [])
      else
        (app, [])
    | _ => (app, [])
  | InputMode.command =>
    match key with
    | KeyCode.enter =>
      let command := app.input_buffer
      if command = quitCommand then
        ({ app with should_quit := true,
                    input_mode := InputMode.normal,
                    input_buffer := [] }, [])
      else
        let _outcome := lua_exec command
        ({ app with input_mode := InputMode.normal,
                    input_buffer := [] }, [command])
    | KeyCode.esc =>
      ({ app with input_mode := InputMode.normal, input_buffer := [] }, [])
    | KeyCode.backspace =>
      ({ app with input_buffer := app.input_buffer.dropLast }, [])
    | KeyCode.char c =>
      ({ app with input_buffer := app.input_buffer ++ [c] }, [])
    | _ => (app, [])

/-- Dispatching a whole key sequence, one `handle_key_event` per key, as the
render loop does (state component only). -/
def App.run_keys (lua_exec : List Char → Bool) (app : App)
    (keys : List KeyCode) : App :=
  keys.foldl (fun a k => (App.handle_key_event lua_exec a k).1) app

/-- Invariant of the session state: the pending command buffer is empty
whenever the mode is Normal. -/
def App.buffer_inv (a : App) : Prop :=
  a.input_mode = InputMode.normal → a.input_buffer = []

instance (a : App) : Decidable a.buffer_inv := by
  unfold App.buffer_inv
  infer_instance

/-- A single dispatcher transition preserves `buffer_inv`. -/
lemma handle_key_event_preserves_buffer_inv (o : List Char → Bool) (a : App)
    (k : KeyCode) (h : a.buffer_inv) :
    (a.handle_key_event o k).1.buffer_inv := by
  obtain ⟨c, q, m, b⟩ := a
  unfold App.buffer_inv at *
  cases m <;> cases k <;>
    simp only [App.handle_key_event] <;>
    (try split_ifs) <;>
    first
      | exact h
      | simp_all

/-- Running any key sequence preserves `buffer_inv`. -/
lemma run_keys_preserves_buffer_inv (o : List Char → Bool) (a : App)
    (keys : List KeyCode) (h : a.buffer_inv) :
    (a.run_keys o keys).buffer_inv := by
  induction keys generalizing a with
  | nil => exact h
  | cons k ks ih =>
    exact ih _ (handle_key_event_preserves_buffer_inv o a k h)

/-- C1: starting from the initial session state (Normal mode, empty buffer,
quit flag false), after dispatching any key sequence the invariant holds:
whenever the mode is Normal the pending command buffer is empty, so the
buffer is non-empty only in Command mode. -/
theorem c1_buffer_empty_in_normal (o : List Char → Bool)
    (file_lines : Option (List String)) (keys : List KeyCode)
    (h : ((App.new file_lines).run_keys o keys).input_mode
           = InputMode.normal) :
    ((App.new file_lines).run_keys o keys).input_buffer = [] :=
  run_keys_preserves_buffer_inv o _ keys (fun _ => rfl) h

/-- Witness for C1 at the key sequence colon, x, Enter from the
no-file initial state. -/
theorem c1_buffer_empty_in_normal_witness :
    ((App.new none).run_keys (fun _ => true)
        [KeyCode.char ':', KeyCode.char 'x', KeyCode.enter]).input_mode
      = InputMode.normal ∧
    ((App.new none).run_keys (fun _ => true)
        [KeyCode.char ':', KeyCode.char 'x', KeyCode.enter]).input_buffer
      = [] :=
  ⟨by decide, c1_buffer_empty_in_normal (fun _ => true) none
      [KeyCode.char ':', KeyCode.char 'x', KeyCode.enter] (by decide)⟩

/-- C2: in Command mode, Enter on any buffer other than the literal
`quit()` submits exactly that buffer text to the script host exactly once,
then returns to Normal mode with the buffer cleared, leaving content and
the quit flag unchanged; and the resulting state and submission list do not
depend on the outcome the host reports. -/
theorem c2_enter_nonquit_executes_once (o : List Char → Bool) (a : App)
    (hm : a.input_mode = InputMode.command)
    (hq : a.input_buffer ≠ quitCommand) :
    (a.handle_key_event o KeyCode.enter).2 = [a.input_buffer] ∧
    (a.handle_key_event o KeyCode.enter).1.input_mode = InputMode.normal ∧
    (a.handle_key_event o KeyCode.enter).1.input_buffer = [] ∧
    (a.handle_key_event o KeyCode.enter).1.content = a.content ∧
    (a.handle_key_event o KeyCode.enter).1.should_quit = a.should_quit ∧
    ∀ o2 : List Char → Bool,
      a.handle_key_event o2 KeyCode.enter
        = a.handle_key_event o KeyCode.enter := by
  obtain ⟨c, q, m, b⟩ := a
  simp only [App.input_mode] at hm
  subst hm
  simp only [App.input_buffer] at hq
  simp [App.handle_key_event, hq]

/-- Witness for C2: submitting the single character x, with a host
reporting success and one reporting failure. -/
theorem c2_enter_nonquit_executes_once_witness :
    ((App.mk ["l"] false InputMode.command ['x']).handle_key_event
        (fun _ => true) KeyCode.enter).2 = [['x']] ∧
    ((App.mk ["l"] false InputMode.command ['x']).handle_key_event
        (fun _ => true) KeyCode.enter).1.input_mode = InputMode.normal ∧
    ((App.mk ["l"] false InputMode.command ['x']).handle_key_event
        (fun _ => false) KeyCode.enter)
      = ((App.mk ["l"] false InputMode.command ['x']).handle_key_event
        (fun _ => true) KeyCode.enter) := by
  have h := c2_enter_nonquit_executes_once (fun _ => true)
      (App.mk ["l"] false InputMode.command ['x']) rfl (by decide)
  exact ⟨h.1, h.2.1, h.2.2.2.2.2 (fun _ => false)⟩

/-- C3: in Command mode, Enter on a buffer equal to the literal `quit()`
sets the quit flag, submits nothing to the script host, and leaves the
session in Normal mode with an empty buffer. -/
theorem c3_quit_intercepted (o : List Char → Bool) (a : App)
    (hm : a.input_mode = InputMode.command)
    (hq : a.input_buffer = quitCommand) :
    (a.handle_key_event o KeyCode.enter).1.should_quit = true ∧
    (a.handle_key_event o KeyCode.enter).2 = [] ∧
    (a.handle_key_event o KeyCode.enter).1.input_mode = InputMode.normal ∧
    (a.handle_key_event o KeyCode.enter).1.input_buffer = [] := by
  obtain ⟨c, q, m, b⟩ := a
  simp only [App.input_mode] at hm
  subst hm
  simp only [App.input_buffer] at hq
  simp [App.handle_key_event, hq]

/-- Witness for C3 at a concrete state whose buffer spells quit(). -/
theorem c3_quit_intercepted_witness :
    ((App.mk ["l"] false InputMode.command "quit()".toList).handle_key_event
        (fun _ => true) KeyCode.enter).1.should_quit = true ∧
    ((App.mk ["l"] false InputMode.command "quit()".toList).handle_key_event
        (fun _ => true) KeyCode.enter).2 = [] :=
  have h := c3_quit_intercepted (fun _ => true)
      (App.mk ["l"] false InputMode.command "quit()".toList) rfl rfl
  ⟨h.1, h.2.1⟩

/-- C4 counterexample: the key colon does not reset the buffer in every
state. From the initial no-file state, pressing colon twice ends with the
buffer holding one colon character: the second colon was appended by the
Command-mode printable-character arm, not cleared. -/
theorem c4_colon_reset_counterexample :
    ¬ ((App.new none).run_keys (fun _ => true)
        [KeyCode.char ':', KeyCode.char ':']).input_buffer = [] := by
  decide

/-- C4 amended: in Normal mode, dispatching the key colon resets the
pending command buffer to empty regardless of its prior content (and
switches to Command mode); in Command mode the colon is instead appended
to the buffer like any printable character. -/
theorem c4_colon_resets_in_normal (o : List Char → Bool) (a : App)
    (hm : a.input_mode = InputMode.normal) :
    (a.handle_key_event o (KeyCode.char ':')).1.input_buffer = [] ∧
    (a.handle_key_event o (KeyCode.char ':')).1.input_mode
      = InputMode.command := by
  obtain ⟨c, q, m, b⟩ := a
  simp only [App.input_mode] at hm
  subst hm
  simp [App.handle_key_event]

/-- Witness for C4 amended at a Normal-mode state with a stale non-empty
buffer. -/
theorem c4_colon_resets_in_normal_witness :
    ((App.mk [] false InputMode.normal ['s']).handle_key_event
        (fun _ => true) (KeyCode.char ':')).1.input_buffer = [] ∧
    ((App.mk [] false InputMode.normal ['s']).handle_key_event
        (fun _ => true) (KeyCode.char ':')).1.input_mode
      = InputMode.command :=
  c4_colon_resets_in_normal (fun _ => true)
    (App.mk [] false InputMode.normal ['s']) rfl

/-- C5: in Normal mode the key q sets the quit flag and changes nothing
else: content, mode and buffer are untouched and the script host is not
invoked. -/
theorem c5_q_sets_quit_only (o : List Char → Bool) (a : App)
    (hm : a.input_mode = InputMode.normal) :
    (a.handle_key_event o (KeyCode.char 'q')).1.should_quit = true ∧
    (a.handle_key_event o (KeyCode.char 'q')).1.content = a.content ∧
    (a.handle_key_event o (KeyCode.char 'q')).1.input_mode = a.input_mode ∧
    (a.handle_key_event o (KeyCode.char 'q')).1.input_buffer
      = a.input_buffer ∧
    (a.handle_key_event o (KeyCode.char 'q')).2 = [] := by
  obtain ⟨c, q, m, b⟩ := a
  simp only [App.input_mode] at hm
  subst hm
  simp [App.handle_key_event]

/-- Witness for C5 at the no-file initial state. -/
theorem c5_q_sets_quit_only_witness :
    ((App.new none).handle_key_event (fun _ => true)
        (KeyCode.char 'q')).1.should_quit = true ∧
    ((App.new none).handle_key_event (fun _ => true)
        (KeyCode.char 'q')).1.content = (App.new none).content :=
  have h := c5_q_sets_quit_only (fun _ => true) (App.new none) rfl
  ⟨h.1, h.2.1⟩

/-- C6: in Command mode, Esc returns to Normal mode with the buffer
cleared, submits nothing to the script host, and leaves content and the
quit flag unchanged, for every prior buffer content. -/
theorem c6_esc_discards (o : List Char → Bool) (a : App)
    (hm : a.input_mode = InputMode.command) :
    (a.handle_key_event o KeyCode.esc).1.input_mode = InputMode.normal ∧
    (a.handle_key_event o KeyCode.esc).1.input_buffer = [] ∧
    (a.handle_key_event o KeyCode.esc).2 = [] ∧
    (a.handle_key_event o KeyCode.esc).1.content = a.content ∧
    (a.handle_key_event o KeyCode.esc).1.should_quit = a.should_quit := by
  obtain ⟨c, q, m, b⟩ := a
  simp only [App.input_mode] at hm
  subst hm
  simp [App.handle_key_event]

/-- Witness for C6 at a Command-mode state holding a non-empty buffer. -/
theorem c6_esc_discards_witness :
    ((App.mk ["l"] false InputMode.command ['a', 'b']).handle_key_event
        (fun _ => true) KeyCode.esc).1.input_mode = InputMode.normal ∧
    ((App.mk ["l"] false InputMode.command ['a', 'b']).handle_key_event
        (fun _ => true) KeyCode.esc).2 = [] :=
  have h := c6_esc_discards (fun _ => true)
      (App.mk ["l"] false InputMode.command ['a', 'b']) rfl
  ⟨h.1, h.2.2.1⟩

/-- C7: in Command mode, Backspace on an empty buffer leaves the whole
state unchanged and invokes nothing; on a non-empty buffer it removes
exactly the last character and changes no other field. -/
theorem c7_backspace_safe (o : List Char → Bool) (a : App)
    (hm : a.input_mode = InputMode.command) :
    (a.input_buffer = [] →
      a.handle_key_event o KeyCode.backspace = (a, [])) ∧
    (∀ l c2, a.input_buffer = l ++ [c2] →
      (a.handle_key_event o KeyCode.backspace).1.input_buffer = l ∧
      (a.handle_key_event o KeyCode.backspace).1.content = a.content ∧
      (a.handle_key_event o KeyCode.backspace).1.input_mode
        = a.input_mode ∧
      (a.handle_key_event o KeyCode.backspace).1.should_quit
        = a.should_quit ∧
      (a.handle_key_event o KeyCode.backspace).2 = []) := by
  obtain ⟨c, q, m, b⟩ := a
  simp only [App.input_mode] at hm
  subst hm
  constructor
  · intro hb
    simp only [App.input_buffer] at hb
    subst hb
    simp [App.handle_key_event]
  · intro l c2 hb
    simp only [App.input_buffer] at hb
    subst hb
    simp [App.handle_key_event]

/-- Witness for C7: Backspace on the buffer a, b removes the b. -/
theorem c7_backspace_safe_witness :
    ((App.mk [] false InputMode.command (['a'] ++ ['b'])).handle_key_event
        (fun _ => true) KeyCode.backspace).1.input_buffer = ['a'] ∧
    ((App.mk [] false InputMode.command (['a'] ++ ['b'])).handle_key_event
        (fun _ => true) KeyCode.backspace).2 = [] :=
  have h := (c7_backspace_safe (fun _ => true)
      (App.mk [] false InputMode.command (['a'] ++ ['b'])) rfl).2
      ['a'] 'b' rfl
  ⟨h.1, h.2.2.2.2⟩

/-- C8: the quit flag is monotone under dispatch: once it is true, every
single transition leaves it true. -/
theorem c8_quit_monotone (o : List Char → Bool) (a : App) (k : KeyCode)
    (h : a.should_quit = true) :
    (a.handle_key_event o k).1.should_quit = true := by
  obtain ⟨c, q, m, b⟩ := a
  simp only [App.should_quit] at h
  subst h
  cases m <;> cases k <;>
    simp only [App.handle_key_event] <;>
    (try split_ifs) <;> rfl

/-- Witness for C8: a quit-flagged Command-mode state stays flagged after
Esc. -/
theorem c8_quit_monotone_witness :
    ((App.mk [] true InputMode.command ['z']).handle_key_event
        (fun _ => true) KeyCode.esc).1.should_quit = true :=
  c8_quit_monotone (fun _ => true)
    (App.mk [] true InputMode.command ['z']) KeyCode.esc rfl

/-- C9: the session built with no file path starts with exactly the two
welcome lines as content, Normal mode, an empty buffer, and the quit flag
false. -/
theorem c9_initial_state_no_file :
    App.new none =
      { content := ["Welcome to logview!",
                    "Press ':' to open command prompt, 'q' to quit."]
        should_quit := false
        input_mode := InputMode.normal
        input_buffer := [] } := rfl

/-- C10: the dispatcher never modifies the display buffer: for every mode,
buffer and key, the content field is unchanged by a transition. -/
theorem c10_content_never_modified (o : List Char → Bool) (a : App)
    (k : KeyCode) :
    (a.handle_key_event o k).1.content = a.content := by
  obtain ⟨c, q, m, b⟩ := a
  cases m <;> cases k <;>
    simp only [App.handle_key_event] <;>
    (try split_ifs) <;> rfl

end Logview
